import Mathlib

/-!
Shallow embedding of the drop-and-bounce simulation core of
`src/my-vue-app/src/App.tsx` (the `GravitySimulator` component).

The physics lives inline in the `animate` callback and the
`resetSimulation` closure.  Numbers are embedded as exact rationals;
the mutable closure variables (`sphere.position.y`, `velocity`,
`isResting`) become an explicit `State` record, and the React state
values (`gravity`, `restitution`, `sphereRadius`, `friction`) become a
`Params` record.  The literals `0.01` (`restThreshold`), `0.1`
(the delta cap) and `10` (the drop height used at setup and in
`resetSimulation`) are session constants in the code and are embedded
as constants here.
-/

namespace BallSim

/-- Tunable configuration captured by the React state hooks:
`gravity`, `restitution`, `sphereRadius`, `friction`. -/
structure Params where
  gravity : ℚ
  restitution : ℚ
  radius : ℚ
  friction : ℚ
deriving DecidableEq, Repr

/-- The literal `const restThreshold = 0.01` of the source. -/
def restThreshold : ℚ := 1/100

/-- The literal cap `0.1` in `Math.min(clock.getDelta(), 0.1)`. -/
def maxDelta : ℚ := 1/10

/-- The literal `10` used for `sphere.position.y` at setup and in
`resetSimulation` (the drop height). -/
def dropHeight : ℚ := 10

/-- The default parameter values of the React state hooks:
`gravity = 9.8`, `restitution = 0.7`, `sphereRadius = 1`,
`friction = 0.03`. -/
def defaultParams : Params :=
  { gravity := 49/5, restitution := 7/10, radius := 1, friction := 3/100 }

/-- The mutable physics state: `sphere.position.y`, `velocity`,
`isResting`. -/
structure State where
  positionY : ℚ
  velocityY : ℚ
  resting : Bool
deriving DecidableEq, Repr

/-- State at session start: `sphere.position.y = 10`, `let velocity = 0`,
`let isResting = false`. -/
def initState : State :=
  { positionY := dropHeight, velocityY := 0, resting := false }

/-- One gravity-integration step from `animate`:
`velocity -= gravity * delta; sphere.position.y += velocity * delta`
(velocity is updated first, then the position uses the updated
velocity). -/
def integrate (p : Params) (s : State) (dt : ℚ) : State :=
  let v := s.velocityY - p.gravity * dt
  { s with velocityY := v, positionY := s.positionY + v * dt }

/-- The ground-collision block of `animate`: if
`sphere.position.y < sphereRadius`, clamp the position to the radius,
then either reflect and damp the velocity
(`velocity = -velocity * restitution; velocity *= 1 - friction`) when
`Math.abs(velocity) > restThreshold`, or come to rest
(`velocity = 0; isResting = true`).  Otherwise nothing happens. -/
def resolve (p : Params) (s : State) : State :=
  if s.positionY < p.radius then
    if restThreshold < |s.velocityY| then
      { s with positionY := p.radius,
               velocityY := -s.velocityY * p.restitution * (1 - p.friction) }
    else
      { positionY := p.radius, velocityY := 0, resting := true }
  else s

/-- One step of the physics part of `animate` at a given (already
clamped) time step `dt`: skipped entirely when `isResting`, otherwise
integrate then resolve. -/
def frameStep (p : Params) (s : State) (dt : ℚ) : State :=
  if s.resting then s else resolve p (integrate p s dt)

/-- The physics part of one `animate` invocation, fed the raw
inter-frame delta reported by the clock: inside `if (!isResting)` the
code clamps it with `Math.min(clock.getDelta(), 0.1)` and then
integrates and resolves. -/
def animateStep (p : Params) (s : State) (raw : ℚ) : State :=
  if s.resting then s
  else
    let delta := min raw maxDelta
    resolve p (integrate p s delta)

/-- Iterated `animate` physics over a list of raw frame deltas. -/
def runSteps (p : Params) (s : State) (raws : List ℚ) : State :=
  raws.foldl (animateStep p) s

/-- State written by the `resetSimulation` closure:
`sphere.position.y = 10; velocity = 0; isResting = false`. -/
def resetState : State :=
  { positionY := 10, velocityY := 0, resting := false }

/-- One simulation session: the parameter store (fixed for the
session), the clock the driver reads, whether the frame callback is
registered, and the physics state. -/
structure Session where
  params : Params
  clockElapsed : ℚ
  driverRegistered : Bool
  state : State
deriving DecidableEq, Repr

/-- The `resetSimulation` closure: it writes only the three physics
variables and touches neither the parameters, the clock, nor the
frame-callback registration. -/
def resetSimulation (sess : Session) : Session :=
  { sess with state := resetState }

/-- States reachable from session start by `animate` physics steps (with
arbitrary raw frame deltas) and by `resetSimulation`. -/
inductive Reachable (p : Params) : State → Prop
  | init : Reachable p initState
  | step (s : State) (raw : ℚ) : Reachable p s → Reachable p (animateStep p s raw)
  | reset (s : State) : Reachable p s → Reachable p resetState

/-- Observable actions of one `animate` invocation, in order.
`schedule` is the `requestAnimationFrame(animate)` call, `tick` the
`clock.getDelta()` read, `integrateEv` and `resolveEv` the integration
and collision blocks, `render` the `renderer.render(scene, camera)`
call. -/
inductive FrameEvent where
  | schedule
  | tick
  | integrateEv
  | resolveEv
  | render
deriving DecidableEq, Repr

/-- The sequence of observable actions of one `animate` invocation, as
the code orders them: it first reschedules itself, then - only when
`!isResting` - reads the clock delta, integrates and resolves, and
finally renders. -/
def animateEvents (s : State) : List FrameEvent :=
  FrameEvent.schedule ::
    (if s.resting then [] else
      [FrameEvent.tick, FrameEvent.integrateEv, FrameEvent.resolveEv])
    ++ [FrameEvent.render]

end BallSim

namespace BallSim

theorem integrate_resting (p : Params) (s : State) (dt : ℚ) :
    (integrate p s dt).resting = s.resting := rfl

/-- C1: resolve is a no-op when positionY is at least the radius; on
contact it clamps positionY to the radius and either reflects and damps
the velocity by restitution times (1 - friction) when its magnitude
exceeds the rest threshold, or zeroes it and sets resting; at contact
with v = -1.0, restitution 0.7, friction 0.03 the rebound is 0.679. -/
theorem C1_resolve_contract (p : Params) (s : State) :
    (p.radius ≤ s.positionY → resolve p s = s) ∧
    (s.positionY < p.radius →
      (restThreshold < |s.velocityY| →
        resolve p s = { s with positionY := p.radius,
                               velocityY := -s.velocityY * p.restitution * (1 - p.friction) }) ∧
      (|s.velocityY| ≤ restThreshold →
        resolve p s = { positionY := p.radius, velocityY := 0, resting := true })) ∧
    resolve defaultParams { positionY := 1/2, velocityY := -1, resting := false }
      = { positionY := 1, velocityY := 679/1000, resting := false } := by
  refine ⟨?_, ?_, ?_⟩
  · intro h
    simp [resolve, not_lt.mpr h]
  · intro h
    refine ⟨fun hv => ?_, fun hv => ?_⟩
    · simp [resolve, h, hv]
    · simp [resolve, h, not_lt.mpr hv]
  · norm_num [resolve, defaultParams, restThreshold, State.mk.injEq]

theorem C1_resolve_contract_witness :
    resolve defaultParams { positionY := 2, velocityY := -1, resting := false }
        = { positionY := 2, velocityY := -1, resting := false } ∧
    resolve defaultParams { positionY := 1/2, velocityY := -1/200, resting := false }
        = { positionY := 1, velocityY := 0, resting := true } := by
  refine ⟨(C1_resolve_contract defaultParams
    { positionY := 2, velocityY := -1, resting := false }).1 (by norm_num [defaultParams]), ?_⟩
  have h := ((C1_resolve_contract defaultParams
    { positionY := 1/2, velocityY := -1/200, resting := false }).2.1
      (by norm_num [defaultParams])).2
      (by rw [abs_of_nonpos (by norm_num)]; norm_num [restThreshold])
  simpa using h

/-- C2: one integration step updates the velocity first and then the
position using the updated velocity; with gravity 9.8, dt 0.016,
starting at y = 10, v = 0, one step yields v = -0.1568 and
y = 9.9974912. -/
theorem C2_integrate_contract :
    (∀ (p : Params) (s : State) (dt : ℚ),
      integrate p s dt
        = { positionY := s.positionY + (s.velocityY - p.gravity * dt) * dt,
            velocityY := s.velocityY - p.gravity * dt,
            resting := s.resting }) ∧
    integrate defaultParams initState (2/125)
      = { positionY := 99974912/10000000, velocityY := -(1568/10000),
          resting := false } := by
  refine ⟨fun p s dt => rfl, ?_⟩
  norm_num [integrate, defaultParams, initState, dropHeight, State.mk.injEq]

/-- C3: after resolve, positionY is at least the radius, with equality
whenever contact (positionY below the radius before resolve)
occurred. -/
theorem C3_clamp_invariant (p : Params) (s : State) :
    p.radius ≤ (resolve p s).positionY ∧
    (s.positionY < p.radius → (resolve p s).positionY = p.radius) := by
  by_cases hc : s.positionY < p.radius
  · by_cases hv : restThreshold < |s.velocityY|
    · simp [resolve, hc, hv]
    · simp [resolve, hc, hv]
  · simp [resolve, hc]
    exact le_of_not_lt hc

theorem C3_clamp_invariant_witness :
    (resolve defaultParams { positionY := 1/2, velocityY := -1, resting := false }).positionY
      = defaultParams.radius :=
  (C3_clamp_invariant defaultParams _).2 (by norm_num [defaultParams])

/-- C4: in every state reachable from session start by frame steps and
resets, resting implies zero velocity and positionY equal to the
radius. -/
theorem C4_resting_invariant (p : Params) (s : State) (hreach : Reachable p s) :
    s.resting = true → s.velocityY = 0 ∧ s.positionY = p.radius := by
  induction hreach with
  | init => simp [initState]
  | step s0 raw _ ih =>
      by_cases hr : s0.resting = true
      · simpa [animateStep, hr] using ih
      · intro h
        by_cases hc : (integrate p s0 (min raw maxDelta)).positionY < p.radius
        · by_cases hv : restThreshold < |(integrate p s0 (min raw maxDelta)).velocityY|
          · simp [animateStep, hr, resolve, hc, hv, integrate_resting] at h
          · simp [animateStep, hr, resolve, hc, hv]
        · simp [animateStep, hr, resolve, hc, integrate_resting] at h
  | reset s0 _ _ => simp [resetState]

theorem C4_resting_invariant_witness :
    (⟨20, 0, true⟩ : State).velocityY = 0 ∧
    (⟨20, 0, true⟩ : State).positionY
      = ({ gravity := 49/5, restitution := 7/10, radius := 20, friction := 3/100 } : Params).radius := by
  have hstep : animateStep { gravity := 49/5, restitution := 7/10, radius := 20, friction := 3/100 }
      initState 0 = ⟨20, 0, true⟩ := by
    norm_num [animateStep, integrate, resolve, initState, dropHeight, restThreshold,
      maxDelta, State.mk.injEq]
  have hreach : Reachable { gravity := 49/5, restitution := 7/10, radius := 20, friction := 3/100 }
      (⟨20, 0, true⟩ : State) :=
    hstep ▸ Reachable.step initState 0 Reachable.init
  exact C4_resting_invariant _ _ hreach rfl

/-- C5: once resting, any further sequence of frame steps (without a
reset) leaves the state - positionY, velocityY and resting -
unchanged. -/
theorem C5_rest_idempotent (p : Params) (s : State) (raws : List ℚ)
    (h : s.resting = true) : runSteps p s raws = s := by
  induction raws with
  | nil => rfl
  | cons raw rest ih =>
      show runSteps p (animateStep p s raw) rest = s
      rw [animateStep, if_pos h]
      exact ih

theorem C5_rest_idempotent_witness :
    runSteps defaultParams ⟨1, 0, true⟩ [1/100, 1/30, 1/5] = ⟨1, 0, true⟩ :=
  C5_rest_idempotent defaultParams ⟨1, 0, true⟩ [1/100, 1/30, 1/5] rfl


/-- C6 counterexample: with the default parameters (restitution 0.7 in
(0,1), friction 0.03 in [0,1)), two successive bounce events - one at a
small raw frame delta, the next at a large one - both have contact speed
above the rest threshold, yet the second rebound speed strictly exceeds
the first, so the sequence of rebound speeds does not strictly
decrease. -/
theorem C6_energy_decay_counterexample :
    (integrate defaultParams ⟨1, -(1/50), false⟩ (1/1000)).positionY < defaultParams.radius ∧
    restThreshold < |(integrate defaultParams ⟨1, -(1/50), false⟩ (1/1000)).velocityY| ∧
    animateStep defaultParams ⟨1, -(1/50), false⟩ (1/1000) = ⟨1, 101171/5000000, false⟩ ∧
    (integrate defaultParams ⟨1, 101171/5000000, false⟩ (1/10)).positionY < defaultParams.radius ∧
    restThreshold < |(integrate defaultParams ⟨1, 101171/5000000, false⟩ (1/10)).velocityY| ∧
    animateStep defaultParams ⟨1, 101171/5000000, false⟩ (1/10)
      = ⟨1, 3258404891/5000000000, false⟩ ∧
    |(101171 : ℚ)/5000000| < |(3258404891 : ℚ)/5000000000| := by
  refine ⟨?_, ?_, ?_, ?_, ?_, ?_, ?_⟩ <;>
    norm_num [animateStep, integrate, resolve, defaultParams, restThreshold, maxDelta,
      State.mk.injEq, abs_of_nonneg, abs_of_nonpos]

/-- C6 amended: at each bounce event (contact after an integrate step),
for restitution in (0,1) and friction in [0,1), the rebound speed equals
the contact speed times restitution * (1 - friction) and is strictly
smaller than the contact speed; and as soon as the contact speed is at
or below the rest threshold, resting becomes true in that very frame
step. -/
theorem C6_bounce_decay (p : Params) (s : State) (dt : ℚ)
    (hr0 : 0 < p.restitution) (hr1 : p.restitution < 1)
    (hf0 : 0 ≤ p.friction) (hf1 : p.friction < 1)
    (hcontact : (integrate p s dt).positionY < p.radius) :
    (restThreshold < |(integrate p s dt).velocityY| →
      |(resolve p (integrate p s dt)).velocityY|
          = |(integrate p s dt).velocityY| * (p.restitution * (1 - p.friction)) ∧
      |(resolve p (integrate p s dt)).velocityY| < |(integrate p s dt).velocityY|) ∧
    (|(integrate p s dt).velocityY| ≤ restThreshold →
      (resolve p (integrate p s dt)).resting = true ∧
      (resolve p (integrate p s dt)).velocityY = 0) := by
  set t := integrate p s dt with ht
  constructor
  · intro hv
    have hres : (resolve p t).velocityY = -t.velocityY * p.restitution * (1 - p.friction) := by
      simp [resolve, hcontact, hv]
    have habs : |(resolve p t).velocityY|
        = |t.velocityY| * (p.restitution * (1 - p.friction)) := by
      rw [hres, abs_mul, abs_mul, abs_neg,
        abs_of_pos hr0, abs_of_pos (by linarith : (0:ℚ) < 1 - p.friction)]
      ring
    refine ⟨habs, ?_⟩
    have hvpos : (0:ℚ) < |t.velocityY| :=
      lt_trans (by norm_num [restThreshold]) hv
    have hco : p.restitution * (1 - p.friction) < 1 := by nlinarith
    calc |(resolve p t).velocityY|
        = |t.velocityY| * (p.restitution * (1 - p.friction)) := habs
      _ < |t.velocityY| * 1 := mul_lt_mul_of_pos_left hco hvpos
      _ = |t.velocityY| := mul_one _
  · intro hv
    simp [resolve, hcontact, not_lt.mpr hv]

theorem C6_bounce_decay_witness :
    |(resolve defaultParams (integrate defaultParams ⟨1, -1, false⟩ (1/100))).velocityY|
      < |(integrate defaultParams ⟨1, -1, false⟩ (1/100)).velocityY| :=
  ((C6_bounce_decay defaultParams ⟨1, -1, false⟩ (1/100)
    (by norm_num [defaultParams]) (by norm_num [defaultParams])
    (by norm_num [defaultParams]) (by norm_num [defaultParams])
    (by norm_num [integrate, defaultParams])).1
    (by norm_num [integrate, defaultParams, restThreshold, abs_of_nonpos])).2

/-- C7: reset reinitializes the physics state to drop height, zero
velocity and not resting; it leaves the parameters, the clock and the
frame-driver registration untouched, and is a no-op in effect when the
state is already the initial one. -/
theorem C7_reset_contract (sess : Session) :
    (resetSimulation sess).state
        = { positionY := dropHeight, velocityY := 0, resting := false } ∧
    (resetSimulation sess).params = sess.params ∧
    (resetSimulation sess).clockElapsed = sess.clockElapsed ∧
    (resetSimulation sess).driverRegistered = sess.driverRegistered ∧
    (sess.state = initState → resetSimulation sess = sess) := by
  refine ⟨rfl, rfl, rfl, rfl, fun h => ?_⟩
  cases sess
  simp_all [resetSimulation, resetState, initState, dropHeight]

theorem C7_reset_contract_witness :
    resetSimulation { params := defaultParams, clockElapsed := 0,
                      driverRegistered := true, state := initState }
      = { params := defaultParams, clockElapsed := 0,
          driverRegistered := true, state := initState } :=
  (C7_reset_contract _).2.2.2.2 rfl

/-- C8: the dt fed to the integrator is the raw inter-frame delta capped
at maxDelta, and for any raw delta above maxDelta it is exactly
maxDelta. -/
theorem C8_delta_cap (p : Params) (s : State) (raw : ℚ) :
    animateStep p s raw = frameStep p s (min raw maxDelta) ∧
    (maxDelta < raw →
      min raw maxDelta = maxDelta ∧ animateStep p s raw = frameStep p s maxDelta) := by
  refine ⟨rfl, fun h => ?_⟩
  have hm : min raw maxDelta = maxDelta := min_eq_right h.le
  exact ⟨hm, by rw [show animateStep p s raw = frameStep p s (min raw maxDelta) from rfl, hm]⟩

theorem C8_delta_cap_witness :
    animateStep defaultParams initState (1/2) = frameStep defaultParams initState maxDelta :=
  ((C8_delta_cap defaultParams initState (1/2)).2 (by norm_num [maxDelta])).2

/-- C9 counterexample: on a frame invoked while resting, the frame
callback never reads the clock delta - its event sequence is just the
reschedule and the render - contradicting the claim that dt is obtained
from the clock on every invocation. -/
theorem C9_tick_counterexample :
    FrameEvent.tick ∉ animateEvents ⟨1, 0, true⟩ ∧
    animateEvents ⟨1, 0, true⟩ = [FrameEvent.schedule, FrameEvent.render] := by
  constructor <;> simp [animateEvents]

/-- C9 amended: each frame-callback invocation begins by rescheduling
itself and ends with a render; on non-resting frames it reads the clock
delta, integrates and resolves - in that strict order - between the two,
while on resting frames neither the clock read nor the physics runs. -/
theorem C9_frame_events (s : State) :
    (s.resting = true → animateEvents s = [FrameEvent.schedule, FrameEvent.render]) ∧
    (s.resting = false →
      animateEvents s = [FrameEvent.schedule, FrameEvent.tick,
        FrameEvent.integrateEv, FrameEvent.resolveEv, FrameEvent.render]) := by
  constructor <;> intro h <;> simp [animateEvents, h]

theorem C9_frame_events_witness :
    animateEvents ⟨10, 0, false⟩ = [FrameEvent.schedule, FrameEvent.tick,
      FrameEvent.integrateEv, FrameEvent.resolveEv, FrameEvent.render] :=
  (C9_frame_events ⟨10, 0, false⟩).2 rfl

/-- C10: for restitution and friction both in [0,1], resolve never
increases the magnitude of the velocity. -/
theorem C10_resolve_speed_nonincreasing (p : Params) (s : State)
    (hr0 : 0 ≤ p.restitution) (hr1 : p.restitution ≤ 1)
    (hf0 : 0 ≤ p.friction) (hf1 : p.friction ≤ 1) :
    |(resolve p s).velocityY| ≤ |s.velocityY| := by
  by_cases hc : s.positionY < p.radius
  · by_cases hv : restThreshold < |s.velocityY|
    · have hres : (resolve p s).velocityY
          = -s.velocityY * p.restitution * (1 - p.friction) := by
        simp [resolve, hc, hv]
      rw [hres, abs_mul, abs_mul, abs_neg,
        abs_of_nonneg hr0, abs_of_nonneg (by linarith : (0:ℚ) ≤ 1 - p.friction)]
      nlinarith [abs_nonneg s.velocityY,
        mul_nonneg (abs_nonneg s.velocityY) hr0]
    · rw [show (resolve p s).velocityY = 0 from by simp [resolve, hc, hv]]
      simp only [abs_zero]
      exact abs_nonneg s.velocityY
  · simp [resolve, hc]

theorem C10_resolve_speed_nonincreasing_witness :
    |(resolve defaultParams ⟨1/2, -1, false⟩).velocityY|
      ≤ |(⟨1/2, -1, false⟩ : State).velocityY| :=
  C10_resolve_speed_nonincreasing defaultParams ⟨1/2, -1, false⟩
    (by norm_num [defaultParams]) (by norm_num [defaultParams])
    (by norm_num [defaultParams]) (by norm_num [defaultParams])

end BallSim
